import Mathlib

/-
Verification of the control-plane message hub of bgpd (control.c).
The definitions below are a shallow embedding of the data model and of the
functions control_accept, control_close, the per-message body of
control_dispatch_msg, and control_imsg_relay.  External collaborator calls
(bgp_fsm, session_stop, timer_set, log_setverbose) are recorded as events;
messages handed to the session process (imsg_ctl_parent), to the
route-decision process (imsg_ctl_rde) and to the client (imsg_compose on the
connection buffer) are collected in separate output lists.
-/

namespace Control

/-- Result codes sent back in IMSG_CTL_RESULT replies (CTL_RES_* in bgpd.h). -/
inductive CtlRes where
  | OK
  | NOSUCHPEER
  | NOCAP
  | BADPEER
  | BADSTATE
  | DENIED
  | PARSE_ERROR
deriving DecidableEq

/-- Message types used by control.c.  CTL_SHOW_RIB_PFX models
IMSG_CTL_SHOW_RIB_PREFIX; OTHER covers every type without a case in the
dispatch switch. -/
inductive ImsgType where
  | NONE
  | CTL_SHOW_NEIGHBOR
  | CTL_SHOW_NEXTHOP
  | CTL_SHOW_INTERFACE
  | CTL_SHOW_RIB_MEM
  | CTL_SHOW_TERSE
  | CTL_SHOW_TIMER
  | CTL_SHOW_NETWORK
  | CTL_SHOW_FLOWSPEC
  | CTL_SHOW_RIB
  | CTL_SHOW_RIB_PFX
  | CTL_SHOW_SET
  | CTL_SHOW_RTR
  | CTL_FIB_COUPLE
  | CTL_FIB_DECOUPLE
  | CTL_NEIGHBOR_UP
  | CTL_NEIGHBOR_DOWN
  | CTL_NEIGHBOR_CLEAR
  | CTL_NEIGHBOR_RREFRESH
  | CTL_NEIGHBOR_DESTROY
  | CTL_RELOAD
  | CTL_SHOW_FIB_TABLES
  | CTL_KROUTE
  | CTL_KROUTE_ADDR
  | NETWORK_ADD
  | NETWORK_ASPATH
  | NETWORK_ATTR
  | NETWORK_REMOVE
  | NETWORK_FLUSH
  | NETWORK_DONE
  | FLOWSPEC_ADD
  | FLOWSPEC_REMOVE
  | FLOWSPEC_DONE
  | FLOWSPEC_FLUSH
  | FILTER_SET
  | CTL_LOG_VERBOSE
  | CTL_END
  | CTL_RESULT
  | CTL_TERMINATE
  | XON
  | XOFF
  | OTHER (code : Nat)
deriving DecidableEq

/-- Peer finite-state-machine states (session.h). -/
inductive PeerState where
  | IDLE
  | CONNECT
  | ACTIVE
  | OPENSENT
  | OPENCONFIRM
  | ESTABLISHED
deriving DecidableEq

/-- Reconfiguration action flag on a peer; RECONF_DELETE marks a peer for
deferred removal on the next poll loop. -/
inductive ReconfAction where
  | NONE
  | KEEP
  | REINIT
  | RELOAD
  | DELETE
deriving DecidableEq

/-- Cease notification reasons used by the lifecycle handlers. -/
inductive CeaseReason where
  | ADMIN_DOWN
  | ADMIN_RESET
deriving DecidableEq

/-- struct rde_peer_stats: the statistics payload of a neighbor-show reply. -/
structure RdePeerStats where
  prefix_cnt : Nat
  prefix_out_cnt : Nat
  prefix_rcvd_update : Nat
  prefix_rcvd_withdraw : Nat
  prefix_rcvd_eor : Nat
  prefix_sent_update : Nat
  prefix_sent_withdraw : Nat
  prefix_sent_eor : Nat
  pending_update : Nat
  pending_withdraw : Nat
deriving DecidableEq

/-- struct peer, restricted to the fields control.c reads or writes.
Addresses are abstracted to a Nat; timers is the list of currently running
timers as (timer type, remaining time) pairs; capa_refresh models the
negotiated route-refresh capability consulted by session_neighbor_rrefresh. -/
structure Peer where
  conf_id : Nat
  conf_descr : String
  conf_remote_addr : Nat
  conf_down : Bool
  conf_reason : String
  state : PeerState
  template : Bool
  IdleHoldTime : Nat
  errcnt : Nat
  reconf_action : ReconfAction
  stats : RdePeerStats
  timers : List (Nat × Nat)
  capa_refresh : Bool
deriving DecidableEq

/-- struct ctl_neighbor: the neighbor selector carried by show/lifecycle
requests.  addr = none models an unset address (aid AID_UNSPEC). -/
structure CtlNeighbor where
  addr : Option Nat
  descr : String
  reason : String
  show_timers : Bool
  is_group : Bool
deriving DecidableEq

/-- An address with its address family id; aid = 0 is AID_UNSPEC. -/
structure BgpdAddr where
  aid : Nat
deriving DecidableEq

/-- struct ctl_show_rib_request: pfx models the prefix field. -/
structure CtlShowRibRequest where
  neighbor : CtlNeighbor
  pfx : BgpdAddr
deriving DecidableEq

/-- struct ctl_timer. -/
structure CtlTimer where
  ttype : Nat
  val : Nat
deriving DecidableEq

/-- Decoded message payloads.  raw stands for any other byte content. -/
inductive Payload where
  | empty
  | neighbor (n : CtlNeighbor)
  | ribreq (r : CtlShowRibRequest)
  | stats (s : RdePeerStats)
  | verbose (v : Int)
  | peer (p : Peer)
  | timer (t : CtlTimer)
  | result (code : CtlRes)
  | raw (w : List Nat)
deriving DecidableEq

/-- Reinterpret a payload as a ctl_neighbor, as the C cast of imsg.data does;
other byte content reads as a zeroed selector. -/
def Payload.toNeighbor : Payload → CtlNeighbor
  | .neighbor n => n
  | _ => ⟨none, "", "", false, false⟩

/-- Reinterpret a payload as a ctl_show_rib_request. -/
def Payload.toRibreq : Payload → CtlShowRibRequest
  | .ribreq r => r
  | _ => ⟨⟨none, "", "", false, false⟩, ⟨0⟩⟩

/-- Reinterpret a payload as an rde_peer_stats. -/
def Payload.toStats : Payload → RdePeerStats
  | .stats s => s
  | _ => ⟨0, 0, 0, 0, 0, 0, 0, 0, 0, 0⟩

/-- Reinterpret a payload as the verbosity integer. -/
def Payload.toVerbose : Payload → Int
  | .verbose v => v
  | _ => 0

/-- A decoded imsg: header fields plus payload.  len is hdr.len, the total
length including the header. -/
structure Imsg where
  type : ImsgType
  len : Nat
  peerid : Nat
  pid : Nat
  data : Payload
deriving DecidableEq

/-- struct ctl_conn: fd and pid live in the imsgbuf (ibuf.fd, ibuf.pid);
queued is ibuf.w.queued, the number of queued outbound buffers. -/
structure CtlConn where
  fd : Nat
  pid : Nat
  restricted : Bool
  throttled : Bool
  terminate : Bool
  queued : Nat
deriving DecidableEq

/-- A message handed to imsg_compose / imsg_ctl_rde / imsg_ctl_parent. -/
structure OutMsg where
  type : ImsgType
  peerid : Nat
  pid : Nat
  data : Payload
deriving DecidableEq

/-- Calls into external collaborators made by the lifecycle handlers. -/
inductive ExtCall where
  | bgp_fsm_start (peerId : Nat)
  | session_stop (peerId : Nat) (r : CeaseReason)
  | timer_set (peerId : Nat) (t : Nat) (v : Nat)
  | rrefresh (peerId : Nat)
  | log_setverbose (v : Int)
deriving DecidableEq

/-- sizeof(struct imsg_hdr). -/
def IMSG_HEADER_SIZE : Nat := 16

/-- Abstract size constant standing for sizeof(struct ctl_neighbor). -/
def sizeof_ctl_neighbor : Nat := 96

/-- Abstract size constant standing for sizeof(struct ctl_show_rib_request). -/
def sizeof_ctl_show_rib_request : Nat := 120

/-- Abstract size constant standing for sizeof(struct rde_peer_stats). -/
def sizeof_rde_peer_stats : Nat := 80

/-- sizeof(int), the verbosity payload. -/
def sizeof_int : Nat := 4

/-- AID_UNSPEC, the unset address family id. -/
def AID_UNSPEC : Nat := 0

/-- Modelled from the spec: Timer_Max and Timer_IdleHold are timer enum
values from session.h, which is not part of src; only their role (loop bound,
idle-hold timer index) matters here. -/
def Timer_Max : Nat := 8

/-- Modelled from the spec: the idle-hold timer index (session.h). -/
def Timer_IdleHold : Nat := 4

/-- Modelled from the spec: initial idle-hold backoff (session.h). -/
def INTERVAL_IDLE_HOLD_INITIAL : Nat := 30

/-- Modelled from the spec: deferred reconnect delay used by the reset
command (session.h). -/
def SESSION_CLEAR_DELAY : Nat := 5

/-- Modelled from the spec: the low watermark of the flow controller
(CTL_MSG_LOW_MARK in session.h, not part of src); the spec requires two
distinct thresholds with the low one below the high one. -/
def CTL_MSG_LOW_MARK : Nat := 330

/-- Modelled from the spec: the high watermark of the flow controller
(CTL_MSG_HIGH_MARK in session.h, not part of src). -/
def CTL_MSG_HIGH_MARK : Nat := 500

/-- Modelled from the spec: peer_matched is implemented in session.c, which
is not part of src.  Per the spec, peers are selected by a descriptor/id
match: an absent selector, or one carrying neither an address nor a
descriptor, matches every peer; a selector with an address matches the peer
with that remote address; otherwise a non-empty descriptor matches the peer
with that descriptor. -/
def peer_matched (p : Peer) (n : Option CtlNeighbor) : Bool :=
  match n with
  | none => true
  | some nb =>
    match nb.addr with
    | some a => p.conf_remote_addr == a
    | none => if nb.descr = "" then true else p.conf_descr == nb.descr

/-- control_result: compose an IMSG_CTL_RESULT reply carrying the code,
addressed with the connection's recorded pid. -/
def control_result (c : CtlConn) (code : CtlRes) : OutMsg :=
  ⟨ImsgType.CTL_RESULT, 0, c.pid, Payload.result code⟩

/-- The read-only allowlist checked for restricted connections. -/
def allowlisted : ImsgType → Bool
  | .CTL_SHOW_NEIGHBOR => true
  | .CTL_SHOW_NEXTHOP => true
  | .CTL_SHOW_INTERFACE => true
  | .CTL_SHOW_RIB_MEM => true
  | .CTL_SHOW_TERSE => true
  | .CTL_SHOW_TIMER => true
  | .CTL_SHOW_NETWORK => true
  | .CTL_SHOW_FLOWSPEC => true
  | .CTL_SHOW_RIB => true
  | .CTL_SHOW_RIB_PFX => true
  | .CTL_SHOW_SET => true
  | .CTL_SHOW_RTR => true
  | _ => false

/-- The restricted-mode filter of control_dispatch_msg: on a restricted
connection a type outside the allowlist is rewritten in place to IMSG_NONE
and a DENIED result is composed. -/
def control_filter (c : CtlConn) (m : Imsg) : Imsg × List OutMsg :=
  if c.restricted && !allowlisted m.type then
    ({m with type := ImsgType.NONE}, [control_result c CtlRes.DENIED])
  else (m, [])

/-- Whether the show-neighbor variant with per-timer detail was requested
(the C condition is the negation: !neighbor || !neighbor->show_timers). -/
def wants_timers : Option CtlNeighbor → Bool
  | none => false
  | some nb => nb.show_timers

/-- The messages composed for one matched peer in the timer-detail variant of
show-neighbor: the peer snapshot, then one timer-status message per running
timer with index 1 <= i < Timer_Max. -/
def show_neighbor_peer (p : Peer) : List OutMsg :=
  ⟨ImsgType.CTL_SHOW_NEIGHBOR, 0, 0, Payload.peer p⟩ ::
  (List.range Timer_Max).filterMap (fun i =>
    if i == 0 then none
    else match p.timers.find? (fun tv => tv.1 == i) with
      | some tv => some ⟨ImsgType.CTL_SHOW_TIMER, 0, 0, Payload.timer ⟨i, tv.2⟩⟩
      | none => none)

/-- Output of the RB_FOREACH traversal of the show-neighbor handler. -/
structure ShowOut where
  toClient : List OutMsg
  toRde : List OutMsg
  matched : Bool
deriving DecidableEq

/-- The RB_FOREACH loop of the show-neighbor handler: for each matched peer,
either forward one aggregate request to the route-decision process (no timer
detail) or compose the snapshot plus timer messages locally. -/
def show_neighbor_fold (nb : Option CtlNeighbor) (reqpid : Nat) :
    List Peer → ShowOut
  | [] => ⟨[], [], false⟩
  | p :: ps =>
    let rest := show_neighbor_fold nb reqpid ps
    if peer_matched p nb then
      if !(wants_timers nb) then
        ⟨rest.toClient,
         ⟨ImsgType.CTL_SHOW_NEIGHBOR, p.conf_id, reqpid, Payload.empty⟩ ::
           rest.toRde, true⟩
      else
        ⟨show_neighbor_peer p ++ rest.toClient, rest.toRde, true⟩
    else ⟨rest.toClient, rest.toRde, rest.matched⟩

/-- The per-matched-peer switch of the neighbor-lifecycle handler: one
result reply per branch; the impossible default (fatal in the source) emits
nothing. -/
def neighbor_cmd (t : ImsgType) (nb : CtlNeighbor) (c : CtlConn) (p : Peer) :
    Peer × List OutMsg × List ExtCall :=
  match t with
  | .CTL_NEIGHBOR_UP =>
    ({p with conf_down := false, conf_reason := "",
             IdleHoldTime := INTERVAL_IDLE_HOLD_INITIAL, errcnt := 0},
     [control_result c CtlRes.OK],
     [ExtCall.bgp_fsm_start p.conf_id])
  | .CTL_NEIGHBOR_DOWN =>
    ({p with conf_down := true, conf_reason := nb.reason},
     [control_result c CtlRes.OK],
     [ExtCall.session_stop p.conf_id CeaseReason.ADMIN_DOWN])
  | .CTL_NEIGHBOR_CLEAR =>
    ({p with conf_reason := nb.reason,
             IdleHoldTime := INTERVAL_IDLE_HOLD_INITIAL, errcnt := 0},
     [control_result c CtlRes.OK],
     if !p.conf_down then
       [ExtCall.session_stop p.conf_id CeaseReason.ADMIN_RESET,
        ExtCall.timer_set p.conf_id Timer_IdleHold SESSION_CLEAR_DELAY]
     else
       [ExtCall.session_stop p.conf_id CeaseReason.ADMIN_DOWN])
  | .CTL_NEIGHBOR_RREFRESH =>
    if !p.capa_refresh then
      (p, [control_result c CtlRes.NOCAP], [])
    else
      (p, [control_result c CtlRes.OK], [ExtCall.rrefresh p.conf_id])
  | .CTL_NEIGHBOR_DESTROY =>
    if !p.template then
      (p, [control_result c CtlRes.BADPEER], [])
    else if p.state != PeerState.IDLE then
      (p, [control_result c CtlRes.BADSTATE], [])
    else
      ({p with reconf_action := ReconfAction.DELETE},
       [control_result c CtlRes.OK], [])
  | _ => (p, [], [])

/-- Output of the RB_FOREACH traversal of the lifecycle handler. -/
structure FoldOut where
  peers : List Peer
  msgs : List OutMsg
  calls : List ExtCall
  matched : Bool
deriving DecidableEq

/-- The RB_FOREACH loop of the lifecycle handler: apply neighbor_cmd to each
matched peer in place. -/
def neighbor_fold (t : ImsgType) (nb : CtlNeighbor) (c : CtlConn) :
    List Peer → FoldOut
  | [] => ⟨[], [], [], false⟩
  | p :: ps =>
    let rest := neighbor_fold t nb c ps
    if peer_matched p (some nb) then
      let r := neighbor_cmd t nb c p
      ⟨r.1 :: rest.peers, r.2.1 ++ rest.msgs, r.2.2 ++ rest.calls, true⟩
    else ⟨p :: rest.peers, rest.msgs, rest.calls, rest.matched⟩

/-- Output of handling one decoded message. -/
structure DispatchOut where
  conn : CtlConn
  peers : List Peer
  toClient : List OutMsg
  toRde : List OutMsg
  toParent : List OutMsg
  calls : List ExtCall
deriving DecidableEq

/-- The dispatch switch of control_dispatch_msg over one (possibly filtered)
message. -/
def control_handle (c : CtlConn) (peers : List Peer) (m : Imsg) :
    DispatchOut :=
  match m.type with
  | .NONE => ⟨c, peers, [], [], [], []⟩
  | .CTL_FIB_COUPLE | .CTL_FIB_DECOUPLE =>
    ⟨c, peers, [], [], [⟨m.type, m.peerid, 0, Payload.empty⟩], []⟩
  | .CTL_SHOW_TERSE =>
    ⟨c, peers,
     peers.map (fun p => ⟨ImsgType.CTL_SHOW_NEIGHBOR, 0, 0, Payload.peer p⟩)
       ++ [⟨ImsgType.CTL_END, 0, 0, Payload.empty⟩],
     [], [], []⟩
  | .CTL_SHOW_NEIGHBOR =>
    let c1 := {c with pid := m.pid}
    let nb : Option CtlNeighbor :=
      if m.len == IMSG_HEADER_SIZE + sizeof_ctl_neighbor then
        some m.data.toNeighbor
      else none
    let f := show_neighbor_fold nb m.pid peers
    if !f.matched && peers.isEmpty then
      ⟨c1, peers, f.toClient ++ [control_result c1 CtlRes.NOSUCHPEER],
       f.toRde, [], []⟩
    else if !(wants_timers nb) then
      ⟨c1, peers, f.toClient,
       f.toRde ++ [⟨ImsgType.CTL_END, 0, m.pid, Payload.empty⟩], [], []⟩
    else
      ⟨c1, peers, f.toClient ++ [⟨ImsgType.CTL_END, 0, 0, Payload.empty⟩],
       f.toRde, [], []⟩
  | .CTL_NEIGHBOR_UP | .CTL_NEIGHBOR_DOWN | .CTL_NEIGHBOR_CLEAR
  | .CTL_NEIGHBOR_RREFRESH | .CTL_NEIGHBOR_DESTROY =>
    if m.len != IMSG_HEADER_SIZE + sizeof_ctl_neighbor then
      ⟨c, peers, [], [], [], []⟩
    else
      let nb := m.data.toNeighbor
      let f := neighbor_fold m.type nb c peers
      ⟨c, f.peers,
       f.msgs ++ (if !f.matched then [control_result c CtlRes.NOSUCHPEER]
                  else []),
       [], [], f.calls⟩
  | .CTL_RELOAD | .CTL_SHOW_INTERFACE | .CTL_SHOW_FIB_TABLES
  | .CTL_SHOW_RTR =>
    ⟨{c with pid := m.pid}, peers, [], [], [⟨m.type, 0, m.pid, m.data⟩], []⟩
  | .CTL_KROUTE | .CTL_KROUTE_ADDR | .CTL_SHOW_NEXTHOP =>
    ⟨{c with pid := m.pid}, peers, [], [],
     [⟨m.type, m.peerid, m.pid, m.data⟩], []⟩
  | .CTL_SHOW_RIB | .CTL_SHOW_RIB_PFX =>
    if m.len != IMSG_HEADER_SIZE + sizeof_ctl_show_rib_request then
      ⟨c, peers, [], [], [], []⟩
    else
      let rq := m.data.toRibreq
      let nb := rq.neighbor
      let found := peers.find? (fun p => peer_matched p (some nb))
      if found.isNone && peers.isEmpty then
        ⟨c, peers, [control_result c CtlRes.NOSUCHPEER], [], [], []⟩
      else if m.type == ImsgType.CTL_SHOW_RIB_PFX &&
          rq.pfx.aid == AID_UNSPEC then
        ⟨c, peers, [control_result c CtlRes.PARSE_ERROR], [], [], []⟩
      else
        ⟨{c with pid := m.pid, terminate := true}, peers, [],
         [⟨m.type, 0, m.pid, m.data⟩], [], []⟩
  | .CTL_SHOW_NETWORK | .CTL_SHOW_FLOWSPEC =>
    ⟨{c with pid := m.pid, terminate := true}, peers, [],
     [⟨m.type, 0, m.pid, m.data⟩], [], []⟩
  | .CTL_SHOW_RIB_MEM | .CTL_SHOW_SET =>
    ⟨{c with pid := m.pid}, peers, [], [⟨m.type, 0, m.pid, m.data⟩], [], []⟩
  | .NETWORK_ADD | .NETWORK_ASPATH | .NETWORK_ATTR | .NETWORK_REMOVE
  | .NETWORK_FLUSH | .NETWORK_DONE | .FLOWSPEC_ADD | .FLOWSPEC_REMOVE
  | .FLOWSPEC_DONE | .FLOWSPEC_FLUSH | .FILTER_SET =>
    ⟨c, peers, [], [⟨m.type, 0, 0, m.data⟩], [], []⟩
  | .CTL_LOG_VERBOSE =>
    if m.len != IMSG_HEADER_SIZE + sizeof_int then
      ⟨c, peers, [], [], [], []⟩
    else
      ⟨c, peers, [], [⟨m.type, 0, m.pid, m.data⟩],
       [⟨m.type, 0, m.pid, m.data⟩],
       [ExtCall.log_setverbose m.data.toVerbose]⟩
  | _ => ⟨c, peers, [], [], [], []⟩

/-- One iteration of the inbound message loop of control_dispatch_msg:
restricted-mode filter, then the dispatch switch; the composed client
messages join the connection's outbound queue. -/
def control_dispatch_imsg (c : CtlConn) (peers : List Peer) (m : Imsg) :
    DispatchOut :=
  let fm := control_filter c m
  let r := control_handle c peers fm.1
  {r with
    conn := {r.conn with
      queued := r.conn.queued + (fm.2 ++ r.toClient).length},
    toClient := fm.2 ++ r.toClient}

/-- The XOFF pause signal for the given pid. -/
def xoff_msg (pid : Nat) : OutMsg := ⟨ImsgType.XOFF, 0, pid, Payload.empty⟩

/-- The XON resume signal for the given pid. -/
def xon_msg (pid : Nat) : OutMsg := ⟨ImsgType.XON, 0, pid, Payload.empty⟩

/-- Output of the POLLOUT branch of control_dispatch_msg.  conn = none means
the connection was closed after a hard write failure. -/
structure PolloutOut where
  conn : Option CtlConn
  toRde : List OutMsg
deriving DecidableEq

/-- The POLLOUT branch of control_dispatch_msg: one msgbuf_write (writeOk is
false on a hard failure, newQueued is the backlog afterwards), then, if the
connection is throttled and the backlog dropped below the low watermark, an
XON attempt; the throttled flag is cleared only when the attempt succeeded
(rdeOk). -/
def control_dispatch_pollout (c : CtlConn) (writeOk : Bool) (newQueued : Nat)
    (rdeOk : Bool) : PolloutOut :=
  if !writeOk then ⟨none, []⟩
  else
    let c1 := {c with queued := newQueued}
    if c1.throttled && decide (newQueued < CTL_MSG_LOW_MARK) then
      ⟨some (if rdeOk then {c1 with throttled := false} else c1),
       [xon_msg c1.pid]⟩
    else ⟨some c1, []⟩

/-- Merge an rde_peer_stats payload field by field into a peer's live
statistics, as the relay bridge does. -/
def merge_stats (p : Peer) (s : RdePeerStats) : Peer :=
  {p with stats :=
    {p.stats with
      prefix_cnt := s.prefix_cnt,
      prefix_out_cnt := s.prefix_out_cnt,
      prefix_rcvd_update := s.prefix_rcvd_update,
      prefix_rcvd_withdraw := s.prefix_rcvd_withdraw,
      prefix_rcvd_eor := s.prefix_rcvd_eor,
      prefix_sent_update := s.prefix_sent_update,
      prefix_sent_withdraw := s.prefix_sent_withdraw,
      prefix_sent_eor := s.prefix_sent_eor,
      pending_update := s.pending_update,
      pending_withdraw := s.pending_withdraw}}

/-- Output of the relay bridge acting on the connection found by pid. -/
structure ConnRelayOut where
  conn : CtlConn
  peer : Option Peer
  toClient : List OutMsg
  toRde : List OutMsg
deriving DecidableEq

/-- The body of control_imsg_relay once the pid lookup resolved to c.
rdeOk models whether the imsg_ctl_rde hand-off of the XOFF signal returns
without error. -/
def relay_conn (c : CtlConn) (m : Imsg) (p : Option Peer) (rdeOk : Bool) :
    ConnRelayOut :=
  if m.type == ImsgType.CTL_SHOW_NEIGHBOR then
    if decide (m.len > IMSG_HEADER_SIZE + sizeof_rde_peer_stats) then
      ⟨c, p, [], []⟩
    else
      match p with
      | none => ⟨c, p, [], []⟩
      | some pr =>
        let pr1 := merge_stats pr m.data.toStats
        ⟨{c with queued := c.queued + 1}, some pr1,
         [⟨m.type, 0, m.pid, Payload.peer pr1⟩], []⟩
  else
    let c1 := if m.type == ImsgType.CTL_END || m.type == ImsgType.CTL_RESULT
              then {c with terminate := false} else c
    let xoff := !c1.throttled && decide (c1.queued > CTL_MSG_HIGH_MARK)
    let c2 := if xoff && rdeOk then {c1 with throttled := true} else c1
    ⟨{c2 with queued := c2.queued + 1}, p,
     [⟨m.type, 0, m.pid, m.data⟩],
     if xoff then [xoff_msg m.pid] else []⟩

/-- Output of control_imsg_relay over the whole connection registry. -/
structure RelayOut where
  conns : List CtlConn
  peer : Option Peer
  toClient : List OutMsg
  toRde : List OutMsg
deriving DecidableEq

/-- control_connbypid: first registry entry with the given pid. -/
def control_connbypid (conns : List CtlConn) (pid : Nat) : Option CtlConn :=
  conns.find? (fun c => c.pid == pid)

/-- control_connbyfd: first registry entry with the given fd. -/
def control_connbyfd (conns : List CtlConn) (fd : Nat) : Option CtlConn :=
  conns.find? (fun c => c.fd == fd)

/-- control_imsg_relay: find the connection whose pid matches the reply and
mutate it in place; with no match the reply is dropped silently. -/
def control_imsg_relay (m : Imsg) (p : Option Peer) (rdeOk : Bool) :
    List CtlConn → RelayOut
  | [] => ⟨[], p, [], []⟩
  | c :: cs =>
    if c.pid == m.pid then
      let r := relay_conn c m p rdeOk
      ⟨r.conn :: cs, r.peer, r.toClient, r.toRde⟩
    else
      let rest := control_imsg_relay m p rdeOk cs
      ⟨c :: rest.conns, rest.peer, rest.toClient, rest.toRde⟩

/-- The hub state shared between accept and close: the registry plus the
pauseaccept timestamp. -/
structure CtlState where
  conns : List CtlConn
  pauseaccept : Nat
deriving DecidableEq

/-- Output of control_close. -/
structure CloseOut where
  conns : List CtlConn
  pauseaccept : Nat
  toRde : List OutMsg
deriving DecidableEq

/-- TAILQ_REMOVE of the connection with the given fd. -/
def conns_remove (fd : Nat) : List CtlConn → List CtlConn
  | [] => []
  | c :: cs => if c.fd == fd then cs else c :: conns_remove fd cs

/-- control_close: when a bulk reply is still pending and a pid is recorded,
hand one IMSG_CTL_TERMINATE to the route-decision process; clear the
outbound queue, remove the connection, and reset pauseaccept. -/
def control_close (st : CtlState) (c : CtlConn) : CloseOut :=
  ⟨conns_remove c.fd st.conns, 0,
   if c.terminate && c.pid != 0 then
     [⟨ImsgType.CTL_TERMINATE, 0, c.pid, Payload.empty⟩]
   else []⟩

/-- The errno values distinguished by control_accept. -/
inductive Errno where
  | ENFILE
  | EMFILE
  | EWOULDBLOCK
  | EINTR
  | ECONNABORTED
  | EOTHER
deriving DecidableEq

/-- Outcome of the accept4 call: a new connection fd or an errno. -/
inductive AcceptRes where
  | conn (fd : Nat)
  | err (e : Errno)
deriving DecidableEq

/-- Output of control_accept: the new hub state and the return value. -/
structure AcceptOut where
  st : CtlState
  ret : Nat
deriving DecidableEq

/-- control_accept: on fd exhaustion record the current monotonic time in
pauseaccept and return 0; on any other error return 0 with no state change;
on success append a fresh zeroed connection carrying the restricted flag. -/
def control_accept (st : CtlState) (now : Nat) (restricted : Bool)
    (r : AcceptRes) : AcceptOut :=
  match r with
  | .err e =>
    if e == Errno.ENFILE || e == Errno.EMFILE then
      ⟨{st with pauseaccept := now}, 0⟩
    else ⟨st, 0⟩
  | .conn fd =>
    ⟨{st with conns := st.conns ++ [⟨fd, 0, restricted, false, false, 0⟩]},
     1⟩

end Control

namespace Control

/-! Helper definitions and lemmas shared by the claim theorems. -/

/-- Number of IMSG_CTL_RESULT replies in a message list. -/
def count_results (msgs : List OutMsg) : Nat :=
  msgs.countP (fun o => o.type == ImsgType.CTL_RESULT)

/-- Number of result replies carrying the given code. -/
def count_res_code (msgs : List OutMsg) (r : CtlRes) : Nat :=
  msgs.countP (fun o => o.data == Payload.result r)

/-- The five neighbor-lifecycle message types. -/
def lifecycle_type (t : ImsgType) : Prop :=
  t = ImsgType.CTL_NEIGHBOR_UP ∨ t = ImsgType.CTL_NEIGHBOR_DOWN ∨
  t = ImsgType.CTL_NEIGHBOR_CLEAR ∨ t = ImsgType.CTL_NEIGHBOR_RREFRESH ∨
  t = ImsgType.CTL_NEIGHBOR_DESTROY

theorem peer_matched_empty_sel (nb : CtlNeighbor) (haddr : nb.addr = none)
    (hdescr : nb.descr = "") (p : Peer) : peer_matched p (some nb) = true := by
  simp [peer_matched, haddr, hdescr]

theorem neighbor_fold_length (t : ImsgType) (nb : CtlNeighbor) (c : CtlConn) :
    ∀ ps : List Peer, (neighbor_fold t nb c ps).peers.length = ps.length := by
  intro ps
  induction ps with
  | nil => simp [neighbor_fold]
  | cons p ps ih =>
    by_cases h : peer_matched p (some nb) = true
    · simp [neighbor_fold, h, ih]
    · simp only [Bool.not_eq_true] at h
      simp [neighbor_fold, h, ih]

theorem neighbor_cmd_single (t : ImsgType) (nb : CtlNeighbor) (c : CtlConn)
    (p : Peer) (ht : lifecycle_type t) :
    ∃ r, (neighbor_cmd t nb c p).2.1 = [control_result c r] ∧
      r ≠ CtlRes.NOSUCHPEER := by
  rcases ht with h | h | h | h | h <;> subst h
  · exact ⟨CtlRes.OK, by simp [neighbor_cmd], by simp⟩
  · exact ⟨CtlRes.OK, by simp [neighbor_cmd], by simp⟩
  · exact ⟨CtlRes.OK, by simp [neighbor_cmd], by simp⟩
  · by_cases hc : p.capa_refresh
    · exact ⟨CtlRes.OK, by simp [neighbor_cmd, hc], by simp⟩
    · simp only [Bool.not_eq_true] at hc
      exact ⟨CtlRes.NOCAP, by simp [neighbor_cmd, hc], by simp⟩
  · by_cases h1 : p.template
    · by_cases h2 : p.state = PeerState.IDLE
      · exact ⟨CtlRes.OK, by simp [neighbor_cmd, h1, h2], by simp⟩
      · exact ⟨CtlRes.BADSTATE, by simp [neighbor_cmd, h1, h2], by simp⟩
    · simp only [Bool.not_eq_true] at h1
      exact ⟨CtlRes.BADPEER, by simp [neighbor_cmd, h1], by simp⟩

theorem count_results_append (a b : List OutMsg) :
    count_results (a ++ b) = count_results a + count_results b := by
  simp [count_results, List.countP_append]

theorem count_res_code_append (a b : List OutMsg) (r : CtlRes) :
    count_res_code (a ++ b) r = count_res_code a r + count_res_code b r := by
  simp [count_res_code, List.countP_append]

theorem count_results_single (c : CtlConn) (r : CtlRes) :
    count_results [control_result c r] = 1 := by
  simp [count_results, control_result, List.countP_cons]

theorem count_res_code_single_ne (c : CtlConn) (r s : CtlRes) (h : r ≠ s) :
    count_res_code [control_result c r] s = 0 := by
  simp [count_res_code, control_result, List.countP_cons, h]

theorem count_results_cons_result (c : CtlConn) (r : CtlRes)
    (rest : List OutMsg) :
    count_results (control_result c r :: rest) = count_results rest + 1 := by
  simp [count_results, control_result, List.countP_cons]

theorem count_res_code_cons_ne (c : CtlConn) (r s : CtlRes) (h : r ≠ s)
    (rest : List OutMsg) :
    count_res_code (control_result c r :: rest) s = count_res_code rest s := by
  simp [count_res_code, control_result, List.countP_cons, h]

theorem neighbor_fold_counts (t : ImsgType) (nb : CtlNeighbor) (c : CtlConn)
    (ht : lifecycle_type t)
    (hm : ∀ p : Peer, peer_matched p (some nb) = true) (ps : List Peer) :
    count_results (neighbor_fold t nb c ps).msgs = ps.length ∧
    count_res_code (neighbor_fold t nb c ps).msgs CtlRes.NOSUCHPEER = 0 ∧
    (neighbor_fold t nb c ps).matched = !ps.isEmpty := by
  induction ps with
  | nil => simp [neighbor_fold, count_results, count_res_code]
  | cons p ps ih =>
    obtain ⟨r, hr, hrne⟩ := neighbor_cmd_single t nb c p ht
    simp only [neighbor_fold, hm p, if_true]
    refine ⟨?_, ?_, by simp⟩
    · simp [hr, count_results_cons_result, ih.1]
    · simp [hr, count_res_code_cons_ne c r CtlRes.NOSUCHPEER hrne, ih.2.1]

end Control

namespace Control

/-! Concrete connections, peers and messages used by witnesses and
counterexamples. -/

/-- An ordinary unrestricted connection. -/
def conn0 : CtlConn := ⟨3, 0, false, false, false, 0⟩

/-- A restricted connection with a recorded pid and two queued buffers. -/
def connR : CtlConn := ⟨4, 5, true, false, false, 2⟩

/-- A connection with a bulk reply pending (terminate set, pid recorded). -/
def connT : CtlConn := ⟨3, 7, false, false, true, 4⟩

/-- Zeroed statistics. -/
def stats0 : RdePeerStats := ⟨0, 0, 0, 0, 0, 0, 0, 0, 0, 0⟩

/-- A configured (non-template) idle peer with descriptor "a". -/
def peer0 : Peer :=
  ⟨1, "a", 10, false, "", PeerState.IDLE, false, 30, 0, ReconfAction.NONE,
   stats0, [], true⟩

/-- A template-derived idle peer with descriptor "t". -/
def peerT : Peer :=
  ⟨2, "t", 11, false, "", PeerState.IDLE, true, 30, 0, ReconfAction.NONE,
   stats0, [], true⟩

/-- A selector matching no configured peer. -/
def nb_nomatch : CtlNeighbor := ⟨none, "b", "", false, false⟩

/-- The empty selector, matching every peer. -/
def nb_all : CtlNeighbor := ⟨none, "", "", false, false⟩

/-- A rib request with an unspecified address family. -/
def rq_unspec : CtlShowRibRequest := ⟨nb_all, ⟨0⟩⟩

/-- A rib request with a non-matching selector and a set address family. -/
def rq_nomatch : CtlShowRibRequest := ⟨nb_nomatch, ⟨4⟩⟩

/-- A well-formed show-neighbor request with a non-matching selector. -/
def m_show_nomatch : Imsg :=
  ⟨ImsgType.CTL_SHOW_NEIGHBOR, IMSG_HEADER_SIZE + sizeof_ctl_neighbor, 0, 7,
   Payload.neighbor nb_nomatch⟩

/-- A well-formed rib show request with a non-matching selector. -/
def m_rib_nomatch : Imsg :=
  ⟨ImsgType.CTL_SHOW_RIB, IMSG_HEADER_SIZE + sizeof_ctl_show_rib_request, 0,
   9, Payload.ribreq rq_nomatch⟩

/-- A well-formed per-prefix rib show request lacking an address family. -/
def m_ribpfx_unspec : Imsg :=
  ⟨ImsgType.CTL_SHOW_RIB_PFX,
   IMSG_HEADER_SIZE + sizeof_ctl_show_rib_request, 0, 9,
   Payload.ribreq rq_unspec⟩

/-- A reload request (outside the read-only allowlist). -/
def m_reload : Imsg := ⟨ImsgType.CTL_RELOAD, IMSG_HEADER_SIZE, 0, 7,
   Payload.empty⟩

/-! Claim C2. -/

/-- Claim C2: on a restricted connection, a message whose type is outside the
read-only allowlist is rewritten in place to IMSG_NONE and answered with
exactly one DENIED result; the original handler is never run, so the peer
collection is untouched and nothing is handed to the session or
route-decision process. -/
theorem restricted_outside_allowlist_denied (c : CtlConn) (peers : List Peer)
    (m : Imsg) (hr : c.restricted = true) (ha : allowlisted m.type = false) :
    control_filter c m =
      ({m with type := ImsgType.NONE}, [control_result c CtlRes.DENIED]) ∧
    control_dispatch_imsg c peers m =
      ⟨{c with queued := c.queued + 1}, peers,
       [control_result c CtlRes.DENIED], [], [], []⟩ := by
  have hf : control_filter c m =
      ({m with type := ImsgType.NONE}, [control_result c CtlRes.DENIED]) := by
    simp [control_filter, hr, ha]
  refine ⟨hf, ?_⟩
  simp [control_dispatch_imsg, hf, control_handle]

/-- Witness for claim C2 at a concrete restricted connection and a reload
request. -/
theorem restricted_outside_allowlist_denied_witness :
    control_filter connR m_reload =
      ({m_reload with type := ImsgType.NONE},
       [control_result connR CtlRes.DENIED]) ∧
    control_dispatch_imsg connR [peer0] m_reload =
      ⟨{connR with queued := connR.queued + 1}, [peer0],
       [control_result connR CtlRes.DENIED], [], [], []⟩ :=
  restricted_outside_allowlist_denied connR [peer0] m_reload (by decide)
    (by decide)

end Control

namespace Control

/-! Claim C7. -/

/-- Claim C7 as frozen is false: on an empty peer collection the
no-neighbor check fires before the address-family check, so a well-formed
per-prefix rib request lacking an address family is answered with
NOSUCHPEER, not with PARSE_ERROR. -/
theorem rib_pfx_missing_af_counterexample :
    count_res_code (control_dispatch_imsg conn0 [] m_ribpfx_unspec).toClient
      CtlRes.PARSE_ERROR = 0 ∧
    (control_dispatch_imsg conn0 [] m_ribpfx_unspec).toClient =
      [control_result conn0 CtlRes.NOSUCHPEER] := by decide

/-- Claim C7 amended: provided the peer collection is non-empty, a
per-prefix rib request of the expected size whose address family is
unspecified is answered with a single PARSE_ERROR result, nothing is
forwarded to the route-decision process, and the connection's pid and
terminate flag are unchanged (only the outbound queue grows by the reply). -/
theorem rib_pfx_missing_af_parse_error (c : CtlConn) (peers : List Peer)
    (m : Imsg) (hne : peers ≠ [])
    (ht : m.type = ImsgType.CTL_SHOW_RIB_PFX)
    (hlen : m.len = IMSG_HEADER_SIZE + sizeof_ctl_show_rib_request)
    (haid : m.data.toRibreq.pfx.aid = AID_UNSPEC) :
    control_dispatch_imsg c peers m =
      ⟨{c with queued := c.queued + 1}, peers,
       [control_result c CtlRes.PARSE_ERROR], [], [], []⟩ := by
  cases peers with
  | nil => exact absurd rfl hne
  | cons q qs =>
    simp [control_dispatch_imsg, control_filter, allowlisted, ht,
      control_handle, hlen, haid]

/-- Witness for the amended claim C7 at a one-peer collection. -/
theorem rib_pfx_missing_af_parse_error_witness :
    control_dispatch_imsg conn0 [peer0] m_ribpfx_unspec =
      ⟨{conn0 with queued := conn0.queued + 1}, [peer0],
       [control_result conn0 CtlRes.PARSE_ERROR], [], [], []⟩ :=
  rib_pfx_missing_af_parse_error conn0 [peer0] m_ribpfx_unspec (by decide)
    (by decide) (by decide) (by decide)

/-! Claim C8. -/

/-- Claim C8: accept returns without side effects on a transient error
(interrupted, would-block, connection aborted); on fd exhaustion
(ENFILE/EMFILE) it records the current monotonic time as the pause-accept
signal and creates no connection; closing any connection resets the signal
to zero so acceptance resumes. -/
theorem accept_backoff_policy (st : CtlState) (now : Nat) (rz : Bool)
    (e : Errno) (c : CtlConn) :
    (e = Errno.EINTR ∨ e = Errno.EWOULDBLOCK ∨ e = Errno.ECONNABORTED →
       control_accept st now rz (AcceptRes.err e) = ⟨st, 0⟩) ∧
    (e = Errno.ENFILE ∨ e = Errno.EMFILE →
       control_accept st now rz (AcceptRes.err e) =
         ⟨{st with pauseaccept := now}, 0⟩) ∧
    (control_close st c).pauseaccept = 0 := by
  refine ⟨?_, ?_, by simp [control_close]⟩
  · rintro (h | h | h) <;> subst h <;> simp [control_accept]
  · rintro (h | h) <;> subst h <;> simp [control_accept]

/-- Witness for claim C8 on a one-connection state. -/
theorem accept_backoff_policy_witness :
    control_accept ⟨[connT], 0⟩ 42 false (AcceptRes.err Errno.EINTR) =
      ⟨⟨[connT], 0⟩, 0⟩ ∧
    control_accept ⟨[connT], 0⟩ 42 false (AcceptRes.err Errno.ENFILE) =
      ⟨⟨[connT], 42⟩, 0⟩ ∧
    (control_close ⟨[connT], 42⟩ connT).pauseaccept = 0 := by
  obtain ⟨h1, h2, h3⟩ :=
    accept_backoff_policy ⟨[connT], 0⟩ 42 false Errno.EINTR connT
  obtain ⟨h4, h5, h6⟩ :=
    accept_backoff_policy ⟨[connT], 42⟩ 42 false Errno.ENFILE connT
  exact ⟨h1 (Or.inl rfl), by
    have := (accept_backoff_policy ⟨[connT], 0⟩ 42 false Errno.ENFILE
      connT).2.1 (Or.inl rfl)
    simpa using this, h6⟩

/-! Claim C9. -/

theorem relay_conn_show_neighbor_drop (c : CtlConn) (m : Imsg)
    (p : Option Peer) (rdeOk : Bool)
    (ht : m.type = ImsgType.CTL_SHOW_NEIGHBOR)
    (h : IMSG_HEADER_SIZE + sizeof_rde_peer_stats < m.len ∨ p = none) :
    relay_conn c m p rdeOk = ⟨c, p, [], []⟩ := by
  rcases h with h | h
  · simp [relay_conn, ht, h]
  · subst h
    by_cases hl : IMSG_HEADER_SIZE + sizeof_rde_peer_stats < m.len
    · simp [relay_conn, ht, hl]
    · simp [relay_conn, ht, hl]

/-- Claim C9: a neighbor-show reply whose payload exceeds the statistics
structure, or that arrives with no resolved peer, is dropped by the relay
bridge: the registry and the peer are unchanged and nothing is composed to
any client or handed to the route-decision process. -/
theorem relay_show_neighbor_reply_dropped (m : Imsg) (p : Option Peer)
    (rdeOk : Bool) (ht : m.type = ImsgType.CTL_SHOW_NEIGHBOR)
    (h : IMSG_HEADER_SIZE + sizeof_rde_peer_stats < m.len ∨ p = none)
    (conns : List CtlConn) :
    control_imsg_relay m p rdeOk conns = ⟨conns, p, [], []⟩ := by
  induction conns with
  | nil => simp [control_imsg_relay]
  | cons c cs ih =>
    by_cases hc : (c.pid == m.pid) = true
    · simp [control_imsg_relay, hc,
        relay_conn_show_neighbor_drop c m p rdeOk ht h]
    · simp only [Bool.not_eq_true] at hc
      simp [control_imsg_relay, hc, ih]

/-- Witness for claim C9: an oversized statistics reply addressed to a
registered pid is dropped. -/
theorem relay_show_neighbor_reply_dropped_witness :
    control_imsg_relay
      ⟨ImsgType.CTL_SHOW_NEIGHBOR, IMSG_HEADER_SIZE + sizeof_rde_peer_stats
         + 1, 1, 7, Payload.stats stats0⟩
      (some peer0) true [connT] =
      ⟨[connT], some peer0, [], []⟩ :=
  relay_show_neighbor_reply_dropped
    ⟨ImsgType.CTL_SHOW_NEIGHBOR, IMSG_HEADER_SIZE + sizeof_rde_peer_stats
       + 1, 1, 7, Payload.stats stats0⟩
    (some peer0) true rfl (Or.inl (by decide)) [connT]

end Control

namespace Control

/-! Claim C4. -/

theorem connbyfd_remove_none (fd : Nat) (l : List CtlConn)
    (hnd : (l.map CtlConn.fd).Nodup) :
    control_connbyfd (conns_remove fd l) fd = none := by
  induction l with
  | nil => simp [conns_remove, control_connbyfd]
  | cons c cs ih =>
    simp only [List.map_cons, List.nodup_cons] at hnd
    by_cases h : c.fd = fd
    · rw [show conns_remove fd (c :: cs) = cs from by simp [conns_remove, h]]
      rw [control_connbyfd, List.find?_eq_none]
      intro x hx hxf
      simp only [beq_iff_eq] at hxf
      refine hnd.1 ?_
      rw [h, ← hxf]
      exact List.mem_map_of_mem CtlConn.fd hx
    · have hb : (c.fd == fd) = false := by simp [h]
      simp only [conns_remove, hb, Bool.false_eq_true, if_false]
      rw [control_connbyfd, List.find?_cons_of_neg _ (by simp [h])]
      exact ih hnd.2

theorem control_imsg_relay_not_found (m : Imsg) (p : Option Peer)
    (rdeOk : Bool) (conns : List CtlConn)
    (h : control_connbypid conns m.pid = none) :
    control_imsg_relay m p rdeOk conns = ⟨conns, p, [], []⟩ := by
  rw [control_connbypid, List.find?_eq_none] at h
  induction conns with
  | nil => simp [control_imsg_relay]
  | cons c cs ih =>
    have hc : (c.pid == m.pid) = false := by
      have := h c (by simp)
      simpa using this
    simp [control_imsg_relay, hc, ih (fun x hx => h x (by simp [hx]))]

/-- Claim C4 as frozen is false: closing a connection with a bulk reply
pending and a recorded pid does send an explicit backend-side cancellation
(IMSG_CTL_TERMINATE) to the route-decision process. -/
theorem close_sends_terminate_counterexample :
    (control_close ⟨[connT], 5⟩ connT).toRde =
      [⟨ImsgType.CTL_TERMINATE, 0, 7, Payload.empty⟩] ∧
    (control_close ⟨[connT], 5⟩ connT).toRde ≠ [] := by decide

/-- Claim C4 amended: closing a connection removes it from the registry and
abandons its queued bytes and terminate state at once; when a bulk reply is
pending (terminate set and pid recorded) one explicit IMSG_CTL_TERMINATE
cancellation is handed to the route-decision process, otherwise nothing is;
a backend reply whose pid lookup fails is dropped entirely. -/
theorem close_cancellation_behavior (st : CtlState) (c : CtlConn)
    (conns : List CtlConn) (m : Imsg) (p : Option Peer) (rdeOk : Bool) :
    (c.terminate = true → c.pid ≠ 0 →
       control_close st c = ⟨conns_remove c.fd st.conns, 0,
         [⟨ImsgType.CTL_TERMINATE, 0, c.pid, Payload.empty⟩]⟩) ∧
    (c.terminate = false ∨ c.pid = 0 →
       control_close st c = ⟨conns_remove c.fd st.conns, 0, []⟩) ∧
    ((st.conns.map CtlConn.fd).Nodup →
       control_connbyfd (control_close st c).conns c.fd = none) ∧
    (control_connbypid conns m.pid = none →
       control_imsg_relay m p rdeOk conns = ⟨conns, p, [], []⟩) := by
  refine ⟨?_, ?_, ?_, control_imsg_relay_not_found m p rdeOk conns⟩
  · intro h1 h2
    simp [control_close, h1, h2]
  · rintro (h | h) <;> simp [control_close, h]
  · intro hnd
    simpa [control_close] using connbyfd_remove_none c.fd st.conns hnd

/-- Witness for the amended claim C4 at concrete states. -/
theorem close_cancellation_behavior_witness :
    control_close ⟨[connT, conn0], 5⟩ connT =
      ⟨[conn0], 0, [⟨ImsgType.CTL_TERMINATE, 0, 7, Payload.empty⟩]⟩ ∧
    control_close ⟨[conn0], 5⟩ conn0 = ⟨[], 0, []⟩ ∧
    control_connbyfd (control_close ⟨[connT, connR], 5⟩ connT).conns 3 =
      none ∧
    control_imsg_relay m_reload none true [connR] =
      ⟨[connR], none, [], []⟩ := by
  obtain ⟨h1, h2, h3, h4⟩ :=
    close_cancellation_behavior ⟨[connT, conn0], 5⟩ connT [connR] m_reload
      none true
  refine ⟨?_, ?_, ?_, h4 (by decide)⟩
  · simpa [conns_remove] using h1 rfl (by decide)
  · have := (close_cancellation_behavior ⟨[conn0], 5⟩ conn0 [] m_reload none
      true).2.1 (Or.inr rfl)
    simpa [conns_remove] using this
  · have := (close_cancellation_behavior ⟨[connT, connR], 5⟩ connT []
      m_reload none true).2.2.1 (by decide)
    simpa using this

end Control

namespace Control

/-! Claim C1. -/

/-- Claim C1 as frozen is false: with a non-empty peer collection and a
selector matching zero peers, no no-such-peer result is produced; the
show-neighbor handler still concludes by handing an end marker to the
route-decision process, and a rib show request is forwarded to the
route-decision process unchanged. -/
theorem nosuchpeer_nonempty_counterexample :
    count_res_code (control_dispatch_imsg conn0 [peer0]
      m_show_nomatch).toClient CtlRes.NOSUCHPEER = 0 ∧
    (control_dispatch_imsg conn0 [peer0] m_show_nomatch).toRde =
      [⟨ImsgType.CTL_END, 0, 7, Payload.empty⟩] ∧
    count_res_code (control_dispatch_imsg conn0 [peer0]
      m_rib_nomatch).toClient CtlRes.NOSUCHPEER = 0 ∧
    (control_dispatch_imsg conn0 [peer0] m_rib_nomatch).toRde =
      [⟨ImsgType.CTL_SHOW_RIB, 0, 9, Payload.ribreq rq_nomatch⟩] := by
  decide

/-- Claim C1 amended: the single no-such-peer reply (with nothing handed to
the route-decision process) is produced exactly when the peer collection is
empty — for show-neighbor and for well-formed rib/rib-prefix requests; with
a non-empty collection and a selector matching zero peers, a rib request is
instead forwarded to the route-decision process. -/
theorem nosuchpeer_requires_empty_collection (c : CtlConn) (m : Imsg)
    (peers : List Peer) :
    (m.type = ImsgType.CTL_SHOW_NEIGHBOR →
       control_dispatch_imsg c [] m =
         ⟨{c with pid := m.pid, queued := c.queued + 1}, [],
          [control_result {c with pid := m.pid} CtlRes.NOSUCHPEER], [], [],
          []⟩) ∧
    ((m.type = ImsgType.CTL_SHOW_RIB ∨ m.type = ImsgType.CTL_SHOW_RIB_PFX) →
       m.len = IMSG_HEADER_SIZE + sizeof_ctl_show_rib_request →
       control_dispatch_imsg c [] m =
         ⟨{c with queued := c.queued + 1}, [],
          [control_result c CtlRes.NOSUCHPEER], [], [], []⟩) ∧
    (peers ≠ [] →
       (∀ p ∈ peers,
          peer_matched p (some m.data.toRibreq.neighbor) = false) →
       m.type = ImsgType.CTL_SHOW_RIB →
       m.len = IMSG_HEADER_SIZE + sizeof_ctl_show_rib_request →
       control_dispatch_imsg c peers m =
         ⟨{c with pid := m.pid, terminate := true}, peers, [],
          [⟨m.type, 0, m.pid, m.data⟩], [], []⟩) := by
  refine ⟨?_, ?_, ?_⟩
  · intro ht
    simp [control_dispatch_imsg, control_filter, allowlisted, ht,
      control_handle, show_neighbor_fold]
  · rintro (ht | ht) hlen <;>
      simp [control_dispatch_imsg, control_filter, allowlisted, ht,
        control_handle, hlen]
  · intro hne hall ht hlen
    have hf : peers.find?
        (fun p => peer_matched p (some m.data.toRibreq.neighbor)) = none :=
      List.find?_eq_none.mpr (fun x hx => by simp [hall x hx])
    cases peers with
    | nil => exact absurd rfl hne
    | cons q qs =>
      simp [control_dispatch_imsg, control_filter, allowlisted, ht,
        control_handle, hlen, hf]

/-- Witness for the amended claim C1: empty collection answers a single
no-such-peer for both request kinds; a one-peer collection with a
non-matching selector forwards the rib request. -/
theorem nosuchpeer_requires_empty_collection_witness :
    control_dispatch_imsg conn0 [] m_show_nomatch =
      ⟨{conn0 with pid := 7, queued := conn0.queued + 1}, [],
       [control_result {conn0 with pid := 7} CtlRes.NOSUCHPEER], [], [],
       []⟩ ∧
    control_dispatch_imsg conn0 [] m_rib_nomatch =
      ⟨{conn0 with queued := conn0.queued + 1}, [],
       [control_result conn0 CtlRes.NOSUCHPEER], [], [], []⟩ ∧
    control_dispatch_imsg conn0 [peer0] m_rib_nomatch =
      ⟨{conn0 with pid := 9, terminate := true}, [peer0], [],
       [⟨ImsgType.CTL_SHOW_RIB, 0, 9, Payload.ribreq rq_nomatch⟩], [],
       []⟩ := by
  refine ⟨?_, ?_, ?_⟩
  · exact (nosuchpeer_requires_empty_collection conn0 m_show_nomatch
      []).1 rfl
  · exact (nosuchpeer_requires_empty_collection conn0 m_rib_nomatch
      []).2.1 (Or.inl rfl) rfl
  · exact (nosuchpeer_requires_empty_collection conn0 m_rib_nomatch
      [peer0]).2.2 (by decide) (by decide) rfl rfl

/-! Claim C5. -/

/-- Claim C5: for a matched peer, destroy-neighbor answers BADPEER when the
peer is not template-derived, BADSTATE when template-derived but not idle,
and otherwise answers OK after only flagging the peer for deferred removal
(reconf action DELETE); the dispatch of a destroy command never changes the
number of peers. -/
theorem destroy_neighbor_semantics (nb : CtlNeighbor) (c : CtlConn)
    (p : Peer) (peers : List Peer) (m : Imsg) :
    (p.template = false →
       neighbor_cmd ImsgType.CTL_NEIGHBOR_DESTROY nb c p =
         (p, [control_result c CtlRes.BADPEER], [])) ∧
    (p.template = true → p.state ≠ PeerState.IDLE →
       neighbor_cmd ImsgType.CTL_NEIGHBOR_DESTROY nb c p =
         (p, [control_result c CtlRes.BADSTATE], [])) ∧
    (p.template = true → p.state = PeerState.IDLE →
       neighbor_cmd ImsgType.CTL_NEIGHBOR_DESTROY nb c p =
         ({p with reconf_action := ReconfAction.DELETE},
          [control_result c CtlRes.OK], [])) ∧
    (m.type = ImsgType.CTL_NEIGHBOR_DESTROY →
       (control_dispatch_imsg c peers m).peers.length = peers.length) := by
  refine ⟨?_, ?_, ?_, ?_⟩
  · intro h
    simp [neighbor_cmd, h]
  · intro h1 h2
    simp [neighbor_cmd, h1, h2]
  · intro h1 h2
    simp [neighbor_cmd, h1, h2]
  · intro ht
    by_cases hr : c.restricted
    · simp [control_dispatch_imsg, control_filter, hr, ht, allowlisted,
        control_handle]
    · by_cases hl : m.len = IMSG_HEADER_SIZE + sizeof_ctl_neighbor
      · simp [control_dispatch_imsg, control_filter, hr, ht, allowlisted,
          control_handle, hl, neighbor_fold_length]
      · simp [control_dispatch_imsg, control_filter, hr, ht, allowlisted,
          control_handle, hl]

/-- Witness for claim C5: the three destroy outcomes at concrete peers and
the peer-count preservation at a concrete destroy dispatch. -/
theorem destroy_neighbor_semantics_witness :
    neighbor_cmd ImsgType.CTL_NEIGHBOR_DESTROY nb_all conn0 peer0 =
      (peer0, [control_result conn0 CtlRes.BADPEER], []) ∧
    neighbor_cmd ImsgType.CTL_NEIGHBOR_DESTROY nb_all conn0
      {peerT with state := PeerState.ESTABLISHED} =
      ({peerT with state := PeerState.ESTABLISHED},
       [control_result conn0 CtlRes.BADSTATE], []) ∧
    neighbor_cmd ImsgType.CTL_NEIGHBOR_DESTROY nb_all conn0 peerT =
      ({peerT with reconf_action := ReconfAction.DELETE},
       [control_result conn0 CtlRes.OK], []) ∧
    (control_dispatch_imsg conn0 [peer0, peerT]
      ⟨ImsgType.CTL_NEIGHBOR_DESTROY,
       IMSG_HEADER_SIZE + sizeof_ctl_neighbor, 0, 7,
       Payload.neighbor nb_all⟩).peers.length = 2 := by
  obtain ⟨h1, h2, h3, h4⟩ := destroy_neighbor_semantics nb_all conn0 peer0
    [peer0, peerT]
    ⟨ImsgType.CTL_NEIGHBOR_DESTROY, IMSG_HEADER_SIZE + sizeof_ctl_neighbor,
     0, 7, Payload.neighbor nb_all⟩
  refine ⟨h1 rfl, ?_, ?_, by simpa using h4 rfl⟩
  · exact (destroy_neighbor_semantics nb_all conn0
      {peerT with state := PeerState.ESTABLISHED} [] m_reload).2.1 rfl
      (by decide)
  · exact (destroy_neighbor_semantics nb_all conn0 peerT [] m_reload).2.2.1
      rfl rfl

end Control

namespace Control

/-! Claim C6. -/

theorem dispatch_lifecycle_toClient (c : CtlConn) (peers : List Peer)
    (nb : CtlNeighbor) (m : Imsg) (ht : lifecycle_type m.type)
    (hres : c.restricted = false)
    (hlen : m.len = IMSG_HEADER_SIZE + sizeof_ctl_neighbor)
    (hdata : m.data = Payload.neighbor nb) :
    (control_dispatch_imsg c peers m).toClient =
      (neighbor_fold m.type nb c peers).msgs ++
      (if !(neighbor_fold m.type nb c peers).matched then
         [control_result c CtlRes.NOSUCHPEER] else []) := by
  rcases ht with h | h | h | h | h <;>
    simp [control_dispatch_imsg, control_filter, hres, control_handle, h,
      hlen, hdata, allowlisted, Payload.toNeighbor]

/-- A well-formed neighbor-start command with the empty selector. -/
def m_up_all : Imsg :=
  ⟨ImsgType.CTL_NEIGHBOR_UP, IMSG_HEADER_SIZE + sizeof_ctl_neighbor, 0, 7,
   Payload.neighbor nb_all⟩

/-- Claim C6: an authorized neighbor-lifecycle command carrying the empty
selector over N peers answers with exactly N individual result replies and
no no-such-peer; over zero peers it answers with the single aggregate
no-such-peer result. -/
theorem lifecycle_empty_selector_counts (c : CtlConn) (peers : List Peer)
    (nb : CtlNeighbor) (m : Imsg) (ht : lifecycle_type m.type)
    (hres : c.restricted = false)
    (hlen : m.len = IMSG_HEADER_SIZE + sizeof_ctl_neighbor)
    (hdata : m.data = Payload.neighbor nb)
    (haddr : nb.addr = none) (hdescr : nb.descr = "") :
    (peers ≠ [] →
       count_results (control_dispatch_imsg c peers m).toClient =
         peers.length ∧
       count_res_code (control_dispatch_imsg c peers m).toClient
         CtlRes.NOSUCHPEER = 0) ∧
    (peers = [] →
       (control_dispatch_imsg c peers m).toClient =
         [control_result c CtlRes.NOSUCHPEER]) := by
  have hm := peer_matched_empty_sel nb haddr hdescr
  have hfold := neighbor_fold_counts m.type nb c ht hm peers
  have htc := dispatch_lifecycle_toClient c peers nb m ht hres hlen hdata
  constructor
  · intro hne
    have hmatch : (neighbor_fold m.type nb c peers).matched = true := by
      rw [hfold.2.2]
      cases peers with
      | nil => exact absurd rfl hne
      | cons q qs => simp
    rw [htc, hmatch]
    simp only [Bool.not_true, Bool.false_eq_true, if_false,
      List.append_nil]
    exact ⟨hfold.1, hfold.2.1⟩
  · intro hnil
    subst hnil
    rw [htc]
    simp [neighbor_fold]

/-- Witness for claim C6: the empty-selector start command over two peers
yields two results and no no-such-peer; over zero peers it yields the
single no-such-peer reply. -/
theorem lifecycle_empty_selector_counts_witness :
    (count_results (control_dispatch_imsg conn0 [peer0, peerT]
       m_up_all).toClient = 2 ∧
     count_res_code (control_dispatch_imsg conn0 [peer0, peerT]
       m_up_all).toClient CtlRes.NOSUCHPEER = 0) ∧
    (control_dispatch_imsg conn0 [] m_up_all).toClient =
      [control_result conn0 CtlRes.NOSUCHPEER] := by
  refine ⟨?_, (lifecycle_empty_selector_counts conn0 [] nb_all m_up_all
    (Or.inl rfl) rfl rfl rfl rfl rfl).2 rfl⟩
  have := (lifecycle_empty_selector_counts conn0 [peer0, peerT] nb_all
    m_up_all (Or.inl rfl) rfl rfl rfl rfl rfl).1 (by decide)
  simpa using this

end Control

namespace Control

/-! Claim C3. -/

/-- A connection over the high watermark, not yet throttled. -/
def connB : CtlConn := ⟨6, 7, false, false, true, 501⟩

/-- A throttled connection. -/
def connTh : CtlConn := ⟨6, 7, false, true, false, 501⟩

/-- An end-of-command reply from the route-decision process. -/
def m_end : Imsg := ⟨ImsgType.CTL_END, IMSG_HEADER_SIZE, 0, 7,
   Payload.empty⟩

/-- Claim C3: the low watermark lies below the high one; relaying a reply to
an unthrottled connection whose backlog exceeds the high watermark hands
exactly one XOFF to the route-decision process and marks the connection
throttled; while throttled the relay hands no further XOFF; the dispatch
path clears the flag and hands exactly one XON once the backlog has dropped
below the low watermark, and does nothing flow-control related otherwise. -/
theorem flow_control_hysteresis :
    CTL_MSG_LOW_MARK < CTL_MSG_HIGH_MARK ∧
    (∀ (c : CtlConn) (m : Imsg) (p : Option Peer),
       m.type ≠ ImsgType.CTL_SHOW_NEIGHBOR → c.throttled = false →
       CTL_MSG_HIGH_MARK < c.queued →
       (relay_conn c m p true).toRde = [xoff_msg m.pid] ∧
       (relay_conn c m p true).conn.throttled = true) ∧
    (∀ (c : CtlConn) (m : Imsg) (p : Option Peer) (rdeOk : Bool),
       m.type ≠ ImsgType.CTL_SHOW_NEIGHBOR → c.throttled = true →
       (relay_conn c m p rdeOk).toRde = [] ∧
       (relay_conn c m p rdeOk).conn.throttled = true) ∧
    (∀ (c : CtlConn) (nq : Nat), c.throttled = true →
       nq < CTL_MSG_LOW_MARK →
       control_dispatch_pollout c true nq true =
         ⟨some {c with queued := nq, throttled := false},
          [xon_msg c.pid]⟩) ∧
    (∀ (c : CtlConn) (nq : Nat) (rdeOk : Bool), c.throttled = true →
       CTL_MSG_LOW_MARK ≤ nq →
       control_dispatch_pollout c true nq rdeOk =
         ⟨some {c with queued := nq}, []⟩) ∧
    (∀ (c : CtlConn) (nq : Nat) (rdeOk : Bool), c.throttled = false →
       control_dispatch_pollout c true nq rdeOk =
         ⟨some {c with queued := nq}, []⟩) := by
  refine ⟨by decide, ?_, ?_, ?_, ?_, ?_⟩
  · intro c m p hne hth hq
    by_cases he : (m.type == ImsgType.CTL_END ||
        m.type == ImsgType.CTL_RESULT) = true
    · simp [relay_conn, hne, he, hth, hq]
    · simp only [Bool.not_eq_true] at he
      simp [relay_conn, hne, he, hth, hq]
  · intro c m p rdeOk hne hth
    by_cases he : (m.type == ImsgType.CTL_END ||
        m.type == ImsgType.CTL_RESULT) = true
    · simp [relay_conn, hne, he, hth]
    · simp only [Bool.not_eq_true] at he
      simp [relay_conn, hne, he, hth]
  · intro c nq hth hq
    simp [control_dispatch_pollout, hth, hq]
  · intro c nq rdeOk hth hq
    have hlt : ¬ nq < CTL_MSG_LOW_MARK := Nat.not_lt.mpr hq
    simp [control_dispatch_pollout, hth, hlt]
  · intro c nq rdeOk hth
    simp [control_dispatch_pollout, hth]

/-- Witness for claim C3 at concrete connections and backlog sizes. -/
theorem flow_control_hysteresis_witness :
    (relay_conn connB m_end none true).toRde = [xoff_msg 7] ∧
    (relay_conn connB m_end none true).conn.throttled = true ∧
    (relay_conn connTh m_end none true).toRde = [] ∧
    control_dispatch_pollout connTh true 0 true =
      ⟨some {connTh with queued := 0, throttled := false},
       [xon_msg connTh.pid]⟩ ∧
    control_dispatch_pollout connTh true 400 true =
      ⟨some {connTh with queued := 400}, []⟩ := by
  obtain ⟨hlh, h2, h3, h4, h5, h6⟩ := flow_control_hysteresis
  exact ⟨(h2 connB m_end none (by decide) rfl (by decide)).1,
         (h2 connB m_end none (by decide) rfl (by decide)).2,
         (h3 connTh m_end none true (by decide) rfl).1,
         h4 connTh 0 rfl (by decide),
         h5 connTh 400 true rfl (by decide)⟩

/-! Claim C10. -/

/-- Claim C10: the throttled flag changes only together with a successful
flow-control hand-off — the relay sets it only when the XOFF hand-off
succeeded, the dispatch path clears it only when the XON hand-off
succeeded; on a failed hand-off (rdeOk false) the flag keeps its previous
value so the signal is retried later. -/
theorem throttled_tracks_signal_success (c : CtlConn) (m : Imsg)
    (p : Option Peer) (nq : Nat) :
    ((relay_conn c m p false).conn.throttled = c.throttled) ∧
    (∀ rdeOk : Bool,
       (relay_conn c m p rdeOk).conn.throttled ≠ c.throttled →
       rdeOk = true ∧
       (relay_conn c m p rdeOk).toRde = [xoff_msg m.pid]) ∧
    (∀ co : CtlConn,
       (control_dispatch_pollout c true nq false).conn = some co →
       co.throttled = c.throttled) ∧
    (∀ (rdeOk : Bool) (co : CtlConn),
       (control_dispatch_pollout c true nq rdeOk).conn = some co →
       co.throttled ≠ c.throttled →
       rdeOk = true ∧
       (control_dispatch_pollout c true nq rdeOk).toRde =
         [xon_msg c.pid]) := by
  have hrelay : ∀ rdeOk : Bool,
      (relay_conn c m p rdeOk).conn.throttled = c.throttled ∨
      (rdeOk = true ∧ (relay_conn c m p rdeOk).conn.throttled = true ∧
       (relay_conn c m p rdeOk).toRde = [xoff_msg m.pid]) := by
    intro rdeOk
    by_cases hty : (m.type == ImsgType.CTL_SHOW_NEIGHBOR) = true
    · left
      by_cases hl :
          (decide (IMSG_HEADER_SIZE + sizeof_rde_peer_stats < m.len)) = true
      · simp [relay_conn, hty, hl]
      · simp only [Bool.not_eq_true] at hl
        cases p with
        | none => simp [relay_conn, hty, hl]
        | some pr => simp [relay_conn, hty, hl]
    · by_cases hx : (!c.throttled &&
          decide (CTL_MSG_HIGH_MARK < c.queued)) = true
      · cases rdeOk with
        | false =>
          left
          by_cases he : (m.type == ImsgType.CTL_END ||
              m.type == ImsgType.CTL_RESULT) = true
          · simp [relay_conn, hty, he, hx]
          · simp only [Bool.not_eq_true] at he
            simp [relay_conn, hty, he, hx]
        | true =>
          right
          by_cases he : (m.type == ImsgType.CTL_END ||
              m.type == ImsgType.CTL_RESULT) = true
          · simp [relay_conn, hty, he, hx]
          · simp only [Bool.not_eq_true] at he
            simp [relay_conn, hty, he, hx]
      · simp only [Bool.not_eq_true] at hx
        left
        by_cases he : (m.type == ImsgType.CTL_END ||
            m.type == ImsgType.CTL_RESULT) = true
        · simp [relay_conn, hty, he, hx]
        · simp only [Bool.not_eq_true] at he
          simp [relay_conn, hty, he, hx]
  have hpoll : ∀ (rdeOk : Bool) (co : CtlConn),
      (control_dispatch_pollout c true nq rdeOk).conn = some co →
      co.throttled = c.throttled ∨
      (rdeOk = true ∧ co.throttled = false ∧ c.throttled = true ∧
       (control_dispatch_pollout c true nq rdeOk).toRde =
         [xon_msg c.pid]) := by
    intro rdeOk co hco
    by_cases hcond : (c.throttled && decide (nq < CTL_MSG_LOW_MARK)) = true
    · cases rdeOk with
      | false =>
        left
        simp [control_dispatch_pollout, hcond] at hco
        simp [← hco]
      | true =>
        right
        simp [control_dispatch_pollout, hcond] at hco
        simp only [Bool.and_eq_true] at hcond
        refine ⟨rfl, ?_, hcond.1, ?_⟩
        · simp [← hco]
        · simp [control_dispatch_pollout, hcond.1, hcond.2]
    · simp only [Bool.not_eq_true] at hcond
      left
      simp [control_dispatch_pollout, hcond] at hco
      simp [← hco]
  refine ⟨?_, ?_, ?_, ?_⟩
  · rcases hrelay false with h | h
    · exact h
    · exact absurd h.1 (by simp)
  · intro rdeOk hne
    rcases hrelay rdeOk with h | h
    · exact absurd h hne
    · refine ⟨h.1, h.2.2⟩
  · intro co hco
    rcases hpoll false co hco with h | h
    · exact h
    · exact absurd h.1 (by simp)
  · intro rdeOk co hco hne
    rcases hpoll rdeOk co hco with h | h
    · exact absurd h hne
    · exact ⟨h.1, h.2.2.2⟩

/-- Witness for claim C10: a failed XOFF hand-off leaves the flag clear; a
successful one sets it; a failed XON hand-off leaves the flag set. -/
theorem throttled_tracks_signal_success_witness :
    (relay_conn connB m_end none false).conn.throttled =
      connB.throttled ∧
    (relay_conn connB m_end none true).toRde = [xoff_msg 7] ∧
    ((control_dispatch_pollout connTh true 0 false).conn =
      some {connTh with queued := 0} →
      ({connTh with queued := 0} : CtlConn).throttled =
        connTh.throttled) := by
  obtain ⟨h1, h2, h3, h4⟩ :=
    throttled_tracks_signal_success connB m_end none 0
  refine ⟨h1, (h2 true (by decide)).2, ?_⟩
  intro h
  exact (throttled_tracks_signal_success connTh m_end none 0).2.2.1
    {connTh with queued := 0} h

end Control
